import Mathlib

/-!
Verification of the answer-normalization and category-selection pipeline of
`app.py` (photo-segmentation ad demo).  Python strings are modelled as
`List Char` / `String`, the vision-language model and the image decoder as
explicit oracles (`Except`-valued functions), and `random.choice` as a draw
indexed by an arbitrary natural number.
-/

set_option maxRecDepth 4096

/-! ### Python character primitives (ASCII fragment used by `str.title`) -/

/-- Test whether `c` is an ASCII lower-case letter (the cased fragment
relevant to the catalog keys and model answers). -/
def pyIsLower (c : Char) : Bool := decide (97 ≤ c.toNat ∧ c.toNat ≤ 122)

/-- Test whether `c` is an ASCII upper-case letter. -/
def pyIsUpper (c : Char) : Bool := decide (65 ≤ c.toNat ∧ c.toNat ≤ 90)

/-- Test whether `c` is cased in the sense of Python's `str.title`. -/
def pyIsCased (c : Char) : Bool := pyIsLower c || pyIsUpper c

/-- ASCII upper-casing, as used by Python's `str.title`. -/
def pyToUpper (c : Char) : Char :=
  if pyIsLower c then Char.ofNat (c.toNat - 32) else c

/-- ASCII lower-casing, as used by Python's `str.title`. -/
def pyToLower (c : Char) : Char :=
  if pyIsUpper c then Char.ofNat (c.toNat + 32) else c

/-- The character `str.title` emits for input character `c` when the
preceding character was cased (`prev = true`) or not. -/
def mapChar (prev : Bool) (c : Char) : Char :=
  if pyIsCased c then (if prev then pyToLower c else pyToUpper c) else c

/-- Worker of Python's `str.title`: `prev` records whether the previous
character was cased; a cased character after a non-cased one is
upper-cased, any other cased character is lower-cased. -/
def titleAux : Bool → List Char → List Char
  | _, [] => []
  | prev, c :: cs =>
    if pyIsCased c then
      (if prev then pyToLower c else pyToUpper c) :: titleAux true cs
    else
      c :: titleAux false cs

/-- Python's `response.title()` (line 180 of `app.py`). -/
def pyTitle (l : List Char) : List Char := titleAux false l

/-! ### Python `str.strip` and `str.replace` -/

/-- Membership in the strip set of `response.strip(". ")`: period or space. -/
def inStripSet (c : Char) : Bool := c == '.' || c == ' '

/-- Strip leading characters satisfying `q` (one side of Python `strip`). -/
def pyStripL (q : Char → Bool) (l : List Char) : List Char := l.dropWhile q

/-- Strip trailing characters satisfying `q` (the other side of `strip`). -/
def pyStripR (q : Char → Bool) (l : List Char) : List Char :=
  (l.reverse.dropWhile q).reverse

/-- Python `s.strip(chars)`: remove the maximal runs of characters from the
strip set at both ends. -/
def pyStripLR (q : Char → Bool) (l : List Char) : List Char :=
  pyStripR q (pyStripL q l)

/-- The end-of-generation marker removed by `extract_answer`. -/
def markerL : List Char := "<end_of_utterance>".data

/-- Fuel-indexed worker for Python
`response.replace("<end_of_utterance>", "")`: scan left to right, on a
match skip the matched occurrence and continue after it (newly adjacent
text is not rescanned), otherwise keep the character. -/
def removeMarkerFuel : Nat → List Char → List Char
  | 0, l => l
  | _ + 1, [] => []
  | fuel + 1, c :: cs =>
    if markerL.isPrefixOf (c :: cs) then removeMarkerFuel fuel (List.drop 17 cs)
    else c :: removeMarkerFuel fuel cs

/-- Python `response.replace("<end_of_utterance>", "")` (line 173). -/
def removeMarker (l : List Char) : List Char := removeMarkerFuel l.length l

/-! ### The answer normalizer `extract_answer` (lines 170-182) -/

/-- List-level pipeline of `extract_answer`: remove the marker, strip
periods and spaces from both ends, then title-case. -/
def extract_answerL (l : List Char) : List Char :=
  pyTitle (pyStripLR inStripSet (removeMarker l))

/-- The function `extract_answer` from `app.py`: the answer normalizer. -/
def extract_answer (s : String) : String := String.mk (extract_answerL s.data)

/-- Membership in Python's default `str.strip()` whitespace set, plus the
period: the trim set the specification's words describe ("all leading and
trailing whitespace and period characters"). -/
def inWhitespaceOrPeriod (c : Char) : Bool :=
  c == ' ' || c == '\t' || c == '\n' || c == '\x0d' || c == '\x0b' || c == '\x0c' || c == '.'

/-- The normalizer as the specification's words describe it (trimming all
whitespace and periods); compared against `extract_answer` to settle the
trimming claim. -/
def extract_answer_claimed (s : String) : String :=
  String.mk (pyTitle (pyStripLR inWhitespaceOrPeriod (removeMarker s.data)))

/-- Alternative trailing-trim, by structural recursion (used to state the
amended trimming claim independently of `pyStripR`). -/
def trimEndRec (q : Char → Bool) : List Char → List Char
  | [] => []
  | c :: cs =>
    match trimEndRec q cs with
    | [] => if q c then [] else [c]
    | d :: ds => c :: d :: ds

/-- Alternative leading-trim, by structural recursion. -/
def trimStartRec (q : Char → Bool) : List Char → List Char
  | [] => []
  | c :: cs => if q c then trimStartRec q cs else c :: cs

/-- The normalizer as amended: marker removal, then trimming of leading and
trailing space and period characters only, then title-casing. -/
def extract_answer_amended (s : String) : String :=
  String.mk (pyTitle (trimEndRec inStripSet (trimStartRec inStripSet (removeMarker s.data))))

/-! ### Advertisements and static catalogs (lines 61-167) -/

/-- The fixed placeholder image URL set by `Ad.__init__`. -/
def adImagePlaceholder : String :=
  "https://blog.udemy.com/wp-content/uploads/2014/05/bigstock-Vector-Promotion-Concept-Fla-57726575.jpg"

/-- An advertisement record.  Ratings (one-decimal floats in the source)
are modelled as rationals. -/
structure Ad where
  title : String
  description : String
  price : String
  rating : ℚ
  image_placeholder : String
deriving DecidableEq

/-- Constructor mirroring `Ad.__init__`: the placeholder URL is always the fixed one (the
`image_size` parameter is never used by the source and is omitted). -/
def Ad.make (title description price : String) (rating : ℚ) : Ad :=
  ⟨title, description, price, rating, adImagePlaceholder⟩

/-- Python `int(rating)`: truncation toward zero. -/
def pyInt (r : ℚ) : ℤ := Int.tdiv r.num r.den

/-- Python `"★" * n` (empty for non-positive `n`). -/
def pyStrRepeat (s : String) (n : ℤ) : String :=
  String.mk (List.replicate n.toNat s.data).flatten

/-- The function `format_stars` (lines 70-76): integer part of the rating many filled
stars, plus a half-star glyph when the fractional part is at least `0.5`. -/
def format_stars (rating : ℚ) : String :=
  let full_stars : ℤ := pyInt rating
  let has_half : Bool := decide (rating - (full_stars : ℚ) ≥ 0.5)
  let stars : String := pyStrRepeat "★" full_stars
  if has_half then stars ++ "½" else stars

/-- Decimal rendering of the one-decimal ratings, Python `str(float)` on
the catalog values (e.g. `4.8` ↦ `"4.8"`, `5.0` ↦ `"5.0"`). -/
def showRating (r : ℚ) : String :=
  toString (pyInt r) ++ "." ++ toString (pyInt (r * 10) - 10 * pyInt r)

/-- The age catalog `ads_age` (lines 92-113). -/
def ads_age : List (String × List Ad) :=
  [("20-30",
    [Ad.make "Ultra Boost X Sneakers" "Limited edition sneakers with cutting-edge comfort technology" "$199.99" 4.8,
     Ad.make "Smart Fitness Watch Pro" "Track your workouts, sleep, and lifestyle with AI-powered insights" "$299.99" 4.7,
     Ad.make "Urban Streetwear Collection" "Express yourself with our latest street-inspired fashion drops" "$149.99" 4.6]),
   ("30-40",
    [Ad.make "Premium Coffee Maker Plus" "Barista-quality coffee at home with smart temperature control" "$399.99" 4.9,
     Ad.make "Professional Series Smartwatch" "Elegant timepiece with advanced productivity features" "$449.99" 4.8,
     Ad.make "Home Automation Starter Kit" "Transform your space with intelligent lighting and security" "$299.99" 4.7]),
   ("40-50",
    [Ad.make "Artisanal Wine Selection" "Curated collection of premium wines from renowned vineyards" "$599.99" 4.9,
     Ad.make "Luxury Watch Collection" "Timeless elegance meets modern craftsmanship" "$1999.99" 4.8,
     Ad.make "Executive Wardrobe Essentials" "Premium suits and accessories for the distinguished professional" "$899.99" 4.7]),
   ("50+",
    [Ad.make "Wellness Supplement Bundle" "Comprehensive nutrition support for active aging" "$129.99" 4.8,
     Ad.make "Comfort-Tech Footwear" "Advanced ergonomic design for all-day comfort" "$159.99" 4.7,
     Ad.make "Luxury Travel Experiences" "Curated adventures with premium accommodations and service" "$2999.99" 4.9])]

/-- The gender catalog `ads_gender` (lines 115-126). -/
def ads_gender : List (String × List Ad) :=
  [("Male",
    [Ad.make "Premium Grooming Kit" "Complete care collection with precision trimmer and luxurious skincare" "$199.99" 4.7,
     Ad.make "Modern Menswear Essentials" "Versatile pieces for the contemporary gentleman" "$299.99" 4.6,
     Ad.make "Sports Performance Collection" "Advanced gear for your active lifestyle" "$249.99" 4.8]),
   ("Female",
    [Ad.make "Luxury Beauty Collection" "Premium skincare and makeup for radiant beauty" "$299.99" 4.9,
     Ad.make "Designer Handbag Selection" "Exclusive bags from world-renowned fashion houses" "$999.99" 4.8,
     Ad.make "Jewelry & Accessories Edit" "Timeless pieces to elevate every outfit" "$499.99" 4.7])]

/-- The mood catalog `ads_mood` (lines 128-144). -/
def ads_mood : List (String × List Ad) :=
  [("Happy",
    [Ad.make "Party Planning Bundle" "Everything you need for your next celebration" "$199.99" 4.7,
     Ad.make "Adventure Gear Set" "Premium outdoor equipment for your next expedition" "$399.99" 4.8,
     Ad.make "Entertainment Package Plus" "Stream, game, and enjoy with our premium entertainment system" "$599.99" 4.6]),
   ("Neutral",
    [Ad.make "Home Essentials Collection" "Quality basics for everyday living" "$249.99" 4.5,
     Ad.make "Smart Kitchen Appliances" "Efficient cooking with innovative technology" "$699.99" 4.7,
     Ad.make "Casual Dining Experience" "Discover local restaurants with exclusive offers" "$99.99" 4.6]),
   ("Sad",
    [Ad.make "Wellness Retreat Package" "Rejuvenating spa experiences for mind and body" "$399.99" 4.9,
     Ad.make "Comfort Food Delivery" "Gourmet comfort meals delivered to your door" "$79.99" 4.7,
     Ad.make "Self-Care Collection" "Premium products for relaxation and wellness" "$199.99" 4.8])]

/-- The style catalog `ads_style` (lines 146-167). -/
def ads_style : List (String × List Ad) :=
  [("Sporty",
    [Ad.make "Pro Athletic Wear" "High-performance gear for serious athletes" "$199.99" 4.8,
     Ad.make "Premium Running Shoes" "Advanced cushioning and support for every run" "$179.99" 4.7,
     Ad.make "Sports Tech Bundle" "Track and improve your performance with smart devices" "$299.99" 4.6]),
   ("Casual",
    [Ad.make "Essential Comfort Collection" "Effortless style for everyday wear" "$149.99" 4.5,
     Ad.make "Lifestyle Sneaker Edit" "Trendy and comfortable footwear for any occasion" "$129.99" 4.6,
     Ad.make "Casual Basics Bundle" "Build your perfect everyday wardrobe" "$199.99" 4.7]),
   ("Formal",
    [Ad.make "Luxury Suit Collection" "Bespoke tailoring with premium fabrics" "$999.99" 4.9,
     Ad.make "Executive Accessories" "Fine watches and leather goods for professionals" "$499.99" 4.8,
     Ad.make "Premium Business Wear" "Sophisticated attire for the modern executive" "$799.99" 4.7]),
   ("Vintage",
    [Ad.make "Classic Collection Pieces" "Timeless fashion with a modern twist" "$299.99" 4.7,
     Ad.make "Retro-Inspired Accessories" "Vintage-style pieces for unique charm" "$199.99" 4.6,
     Ad.make "Heritage Fashion Edit" "Contemporary takes on classic designs" "$399.99" 4.8])]

/-- All keys of the four static catalogs. -/
def catalogKeys : List String :=
  (ads_age ++ ads_gender ++ ads_mood ++ ads_style).map Prod.fst

/-! ### Segmentation (lines 184-232) -/

/-- The four fixed segmentation categories (the keys of `questions`). -/
inductive Category where
  | age
  | gender
  | mood
  | style
deriving DecidableEq, BEq

/-- The category name as capitalized in the default ad titles. -/
def categoryName : Category → String
  | Category.age => "Age"
  | Category.gender => "Gender"
  | Category.mood => "Mood"
  | Category.style => "Style"

/-- The fixed question texts of the `questions` dict (lines 217-222). -/
def questionOf : Category → String
  | Category.age => "Based on the person's facial features, what is the age range? Answer with one of: '20-30', '30-40', '40-50', '50+'."
  | Category.gender => "Based on the person's appearance, what is their likely gender? Answer with 'Male' or 'Female'."
  | Category.mood => "How would you describe the person's mood based on their expression? Answer with 'Happy', 'Neutral', or 'Sad'."
  | Category.style => "Based on the person's style, what fashion category do they belong to? Answer with 'Sporty', 'Casual', 'Formal', or 'Vintage'."

/-- The `questions` dict, in insertion order. -/
def questions : List (Category × String) :=
  [Category.age, Category.gender, Category.mood, Category.style].map (fun c => (c, questionOf c))

/-- The wrapper `ask_mlx_vlm` (lines 185-199).  The external `generate` capability on
the already-decoded image is the oracle `gen`, mapping the question to its
answer text or to the raised exception's message.  The whole body runs
inside `try ... except`, so the wrapper itself always returns normally
(`Except.ok`): an oracle failure is converted into the string
`"Error processing question: <message>"` returned as if it were model
output. -/
def ask_mlx_vlm (gen : String → Except String String) (question : String) :
    Except String String :=
  Except.ok (match gen question with
    | Except.ok output => output
    | Except.error e => "Error processing question: " ++ e)

/-- The segmentation loop of `process_image` (lines 224-232): for each
category ask the model inside `try ... except`, normalize the answer, and
record `"N/A"` if the call raised. -/
def segmentation (gen : String → Except String String) : List (Category × String) :=
  questions.map (fun kq =>
    (kq.1, match ask_mlx_vlm gen kq.2 with
      | Except.ok response => extract_answer response
      | Except.error _ => "N/A"))

/-- A concrete model behaviour: the `generate` call throws `"boom"` for the
mood question and answers `"Happy"` for the other three. -/
def gen0 : String → Except String String :=
  fun q => if q = questionOf Category.mood then Except.error "boom" else Except.ok "Happy"

/-- A concrete model behaviour that throws `"oom"` on every question. -/
def genOom : String → Except String String := fun _ => Except.error "oom"

/-! ### Ad selection (lines 234-240) -/

/-- Python `random.choice(l)`, the draw indexed by an arbitrary `i` (`none`
models the `IndexError` on an empty sequence, which never occurs here). -/
def pyRandomChoice {α : Type} (l : List α) (i : Nat) : Option α :=
  l.get? (i % l.length)

/-- Python `catalog.get(label, dflt)` where `label` is the result of
`segmentation.get(key)` (hence optional). -/
def dictGetAds (catalog : List (String × List Ad)) (label : Option String)
    (dflt : List Ad) : List Ad :=
  match label with
  | some l => (List.lookup l catalog).getD dflt
  | none => dflt

/-- The per-category fallback ads built inline in `selected_ads`. -/
def defaultAd : Category → Ad
  | Category.age => Ad.make "Default Age Ad" "Personalized recommendations for you" "$0.00" 5.0
  | Category.gender => Ad.make "Default Gender Ad" "Curated selections for you" "$0.00" 5.0
  | Category.mood => Ad.make "Default Mood Ad" "Special picks for your mood" "$0.00" 5.0
  | Category.style => Ad.make "Default Style Ad" "Trending items for your style" "$0.00" 5.0

/-- The catalog consulted for each category. -/
def catalogOf : Category → List (String × List Ad)
  | Category.age => ads_age
  | Category.gender => ads_gender
  | Category.mood => ads_mood
  | Category.style => ads_style

/-- One entry of the `selected_ads` dict:
`random.choice(catalog.get(label, [default]))`. -/
def selected_ad (catalog : List (String × List Ad)) (label : Option String)
    (dflt : Ad) (i : Nat) : Option Ad :=
  pyRandomChoice (dictGetAds catalog label [dflt]) i

/-- The `selected_ads` dict (lines 235-240). -/
def selected_ads (seg : List (Category × String)) (idx : Category → Nat) :
    Category → Option Ad :=
  fun c => selected_ad (catalogOf c) (List.lookup c seg) (defaultAd c) (idx c)

/-! ### Rendering (lines 243-391) -/

/-- Python `segmentation.get(key, "N/A")` as used in the HTML template. -/
def segGet (seg : List (Category × String)) (c : Category) : String :=
  (List.lookup c seg).getD "N/A"

/-- The inner `format_ad_html` (lines 243-256), the one the route uses. -/
def format_ad_html (ad : Ad) : String :=
  "\n        <div class=\"ad-card\">\n            <img src=\"" ++ ad.image_placeholder ++
  "\" alt=\"" ++ ad.title ++ "\" class=\"ad-image\">\n            <div class=\"ad-content\">\n                <h3 class=\"ad-title\">" ++
  ad.title ++ "</h3>\n                <p class=\"ad-description\">" ++ ad.description ++
  "</p>\n                <div class=\"ad-footer\">\n                    <span class=\"ad-price\">" ++
  ad.price ++ "</span>\n                    <span class=\"ad-rating\">" ++
  format_stars ad.rating ++ " " ++ "(" ++ showRating ad.rating ++ ")" ++
  "</span>\n                </div>\n            </div>\n        </div>\n        "

/-- The `<style>` block of the response template (lines 259-360); literal
braces of the CSS (written `\x7b\x7b`/`\x7d\x7d` in the f-string) appear
once in the output. -/
def htmlStyles : String :=
  "\n    <style>\n        .results-container \x7b\n            font-family: Arial, sans-serif;\n            max-width: 1200px;\n            margin: 0 auto;\n            padding: 20px;\n        \x7d\n        \n        .segmentation-card \x7b\n            background: white;\n            border-radius: 8px;\n            padding: 15px;\n            margin-bottom: 20px;\n            box-shadow: 0 2px 4px rgba(0,0,0,0.1);\n        \x7d\n        \n        .segmentation-grid \x7b\n            display: grid;\n            grid-template-columns: repeat(4, 1fr);\n            gap: 15px;\n        \x7d\n        \n        .segmentation-item \x7b\n            display: flex;\n            align-items: center;\n            gap: 8px;\n        \x7d\n        \n        .ads-grid \x7b\n            display: grid;\n            grid-template-columns: repeat(4, 1fr);\n            gap: 20px;\n        \x7d\n        \n        .ad-card \x7b\n            background: white;\n            border-radius: 8px;\n            overflow: hidden;\n            box-shadow: 0 2px 4px rgba(0,0,0,0.1);\n            transition: transform 0.2s;\n        \x7d\n        \n        .ad-card:hover \x7b\n            transform: translateY(-5px);\n        \x7d\n        \n        .ad-image \x7b\n            width: 100%;\n            height: 200px;\n            object-fit: cover;\n        \x7d\n        \n        .ad-content \x7b\n            padding: 15px;\n        \x7d\n        \n        .ad-title \x7b\n            margin: 0 0 10px 0;\n            font-size: 16px;\n            font-weight: bold;\n            color: #333;\n        \x7d\n        \n        .ad-description \x7b\n            font-size: 14px;\n            color: #666;\n            margin-bottom: 15px;\n            line-height: 1.4;\n        \x7d\n        \n        .ad-footer \x7b\n            display: flex;\n            justify-content: space-between;\n            align-items: center;\n        \x7d\n        \n        .ad-price \x7b\n            color: #2ecc71;\n            font-weight: bold;\n            font-size: 18px;\n        \x7d\n        \n        .ad-rating \x7b\n            color: #f1c40f;\n            font-size: 14px;\n        \x7d\n        \n        @media (max-width: 1024px) \x7b\n            .ads-grid \x7b\n                grid-template-columns: repeat(2, 1fr);\n            \x7d\n        \x7d\n        \n        @media (max-width: 640px) \x7b\n            .ads-grid \x7b\n                grid-template-columns: 1fr;\n            \x7d\n            .segmentation-grid \x7b\n                grid-template-columns: repeat(2, 1fr);\n            \x7d\n        \x7d\n    </style>\n"

/-- The template `html_output` (lines 258-391): the styles, the four raw segmentation
labels with icons, and the four selected ad cards. -/
def html_output (seg : List (Category × String)) (ads : Category → Ad) : String :=
  htmlStyles ++
  "\n    <div class=\"results-container\">\n        <div class=\"segmentation-card\">\n            <div class=\"segmentation-grid\">\n                <div class=\"segmentation-item\">\n                    <span>🎯</span>\n                    <span>Age: " ++
  segGet seg Category.age ++
  "</span>\n                </div>\n                <div class=\"segmentation-item\">\n                    <span>👤</span>\n                    <span>Gender: " ++
  segGet seg Category.gender ++
  "</span>\n                </div>\n                <div class=\"segmentation-item\">\n                    <span>😊</span>\n                    <span>Mood: " ++
  segGet seg Category.mood ++
  "</span>\n                </div>\n                <div class=\"segmentation-item\">\n                    <span>👔</span>\n                    <span>Style: " ++
  segGet seg Category.style ++
  "</span>\n                </div>\n            </div>\n        </div>\n        \n        <div class=\"ads-grid\">\n            " ++
  format_ad_html (ads Category.age) ++ "\n            " ++
  format_ad_html (ads Category.gender) ++ "\n            " ++
  format_ad_html (ads Category.mood) ++ "\n            " ++
  format_ad_html (ads Category.style) ++
  "\n        </div>\n    </div>\n    "

/-! ### The HTTP handler `process_image` (lines 203-256) -/

/-- The JSON bodies the route can produce; `uncaught` models an exception
escaping the handler (which provably never happens). -/
inductive Body where
  | errorJson (msg : String)
  | htmlJson (html : String)
  | uncaught
deriving DecidableEq

/-- The route handler `process_image`: `files` is the multipart form data, `decodeImage` the
`PIL.Image.open(...).convert("RGB")` collaborator, `gen` the model oracle
for a decoded image, `idx` the stream of random draws. -/
def process_image {Img : Type}
    (files : List (String × List Nat))
    (decodeImage : List Nat → Except String Img)
    (gen : Img → String → Except String String)
    (idx : Category → Nat) : Nat × Body :=
  match List.lookup "image" files with
  | none => (400, Body.errorJson "No image uploaded")
  | some fileBytes =>
    match decodeImage fileBytes with
    | Except.error e => (500, Body.errorJson e)
    | Except.ok img =>
      let seg := segmentation (gen img)
      match selected_ads seg idx Category.age, selected_ads seg idx Category.gender,
            selected_ads seg idx Category.mood, selected_ads seg idx Category.style with
      | some a1, some a2, some a3, some a4 =>
        (200, Body.htmlJson (html_output seg (fun c =>
          match c with
          | Category.age => a1
          | Category.gender => a2
          | Category.mood => a3
          | Category.style => a4)))
      | _, _, _, _ => (500, Body.uncaught)

/-! ### Character-level lemmas -/

theorem char_toNat_ofNat {n : Nat} (h : n < 55296) : (Char.ofNat n).toNat = n := by
  rw [Char.ofNat, dif_pos (Or.inl h)]
  rfl

theorem pyIsLower_toNat {c : Char} (h : pyIsLower c = true) :
    97 ≤ c.toNat ∧ c.toNat ≤ 122 := by
  simpa [pyIsLower] using h

theorem pyIsUpper_toNat {c : Char} (h : pyIsUpper c = true) :
    65 ≤ c.toNat ∧ c.toNat ≤ 90 := by
  simpa [pyIsUpper] using h

theorem pyToUpper_toNat {c : Char} (h : pyIsLower c = true) :
    (pyToUpper c).toNat = c.toNat - 32 := by
  have hb := pyIsLower_toNat h
  rw [pyToUpper, if_pos h]
  exact char_toNat_ofNat (by omega)

theorem pyToLower_toNat {c : Char} (h : pyIsUpper c = true) :
    (pyToLower c).toNat = c.toNat + 32 := by
  have hb := pyIsUpper_toNat h
  rw [pyToLower, if_pos h]
  exact char_toNat_ofNat (by omega)

theorem pyToUpper_eq {c : Char} (h : pyIsLower c = false) : pyToUpper c = c := by
  rw [pyToUpper, if_neg (by simp [h])]

theorem pyToLower_eq {c : Char} (h : pyIsUpper c = false) : pyToLower c = c := by
  rw [pyToLower, if_neg (by simp [h])]

theorem pyIsUpper_pyToUpper {c : Char} (h : pyIsCased c = true) :
    pyIsUpper (pyToUpper c) = true := by
  rcases Bool.or_eq_true_iff.mp (by simpa [pyIsCased] using h) with hl | hu
  · have hb := pyIsLower_toNat hl
    have ht := pyToUpper_toNat hl
    simp only [pyIsUpper, decide_eq_true_eq, ht]
    omega
  · rw [pyToUpper_eq]
    · exact hu
    · have hb := pyIsUpper_toNat hu
      simp only [pyIsLower, decide_eq_false_iff_not]
      omega

theorem pyIsLower_pyToLower {c : Char} (h : pyIsCased c = true) :
    pyIsLower (pyToLower c) = true := by
  rcases Bool.or_eq_true_iff.mp (by simpa [pyIsCased] using h) with hl | hu
  · rw [pyToLower_eq]
    · exact hl
    · have hb := pyIsLower_toNat hl
      simp only [pyIsUpper, decide_eq_false_iff_not]
      omega
  · have hb := pyIsUpper_toNat hu
    have ht := pyToLower_toNat hu
    simp only [pyIsLower, decide_eq_true_eq, ht]
    omega

theorem pyIsCased_of_lower {c : Char} (h : pyIsLower c = true) : pyIsCased c = true := by
  simp [pyIsCased, h]

theorem pyIsCased_of_upper {c : Char} (h : pyIsUpper c = true) : pyIsCased c = true := by
  simp [pyIsCased, h]

theorem mapChar_of_not_cased {p : Bool} {c : Char} (h : pyIsCased c = false) :
    mapChar p c = c := by
  rw [mapChar, if_neg (by simp [h])]

theorem pyIsCased_mapChar (p : Bool) (c : Char) :
    pyIsCased (mapChar p c) = pyIsCased c := by
  cases h : pyIsCased c with
  | false => rw [mapChar_of_not_cased h, h]
  | true =>
    rw [mapChar, if_pos h]
    cases p with
    | false => simpa using pyIsCased_of_upper (pyIsUpper_pyToUpper h)
    | true => simpa using pyIsCased_of_lower (pyIsLower_pyToLower h)

theorem mapChar_mapChar (p : Bool) (c : Char) :
    mapChar p (mapChar p c) = mapChar p c := by
  cases h : pyIsCased c with
  | false => rw [mapChar_of_not_cased h, mapChar_of_not_cased h]
  | true =>
    have hmc : pyIsCased (mapChar p c) = true := by rw [pyIsCased_mapChar, h]
    cases p with
    | false =>
      have h1 : mapChar false c = pyToUpper c := by simp [mapChar, h]
      have hu : pyIsUpper (pyToUpper c) = true := pyIsUpper_pyToUpper h
      have hnl : pyIsLower (pyToUpper c) = false := by
        have hb := pyIsUpper_toNat hu
        simp only [pyIsLower, decide_eq_false_iff_not]
        omega
      rw [h1, mapChar, if_pos (pyIsCased_of_upper hu)]
      simp [pyToUpper_eq hnl]
    | true =>
      have h1 : mapChar true c = pyToLower c := by simp [mapChar, h]
      have hl : pyIsLower (pyToLower c) = true := pyIsLower_pyToLower h
      have hnu : pyIsUpper (pyToLower c) = false := by
        have hb := pyIsLower_toNat hl
        simp only [pyIsUpper, decide_eq_false_iff_not]
        omega
      rw [h1, mapChar, if_pos (pyIsCased_of_lower hl)]
      simp [pyToLower_eq hnu]

/-! ### `titleAux` lemmas -/

theorem titleAux_cons (p : Bool) (c : Char) (cs : List Char) :
    titleAux p (c :: cs) = mapChar p c :: titleAux (pyIsCased c) cs := by
  cases h : pyIsCased c <;> simp [titleAux, mapChar, h]

theorem titleAux_length (p : Bool) (l : List Char) :
    (titleAux p l).length = l.length := by
  induction l generalizing p with
  | nil => rfl
  | cons c cs ih => rw [titleAux_cons]; simp [ih]

theorem titleAux_idem (l : List Char) : ∀ p, titleAux p (titleAux p l) = titleAux p l := by
  induction l with
  | nil => intro p; rfl
  | cons c cs ih =>
    intro p
    rw [titleAux_cons, titleAux_cons, pyIsCased_mapChar, mapChar_mapChar, ih]

/-! ### The marker never reappears in title-cased output -/

theorem mapChar_ne_langle {p : Bool} {c : Char} (h : mapChar p c = '<') : c = '<' := by
  have hc : pyIsCased c = false := by
    have h2 := pyIsCased_mapChar p c
    rw [h] at h2
    rw [← h2]
    decide
  rw [← @mapChar_of_not_cased p c hc, h]

theorem mapChar_false_ne_e (c : Char) : mapChar false c ≠ 'e' := by
  intro h
  cases hc : pyIsCased c with
  | false =>
    rw [mapChar_of_not_cased hc] at h
    rw [h] at hc
    exact absurd hc (by decide)
  | true =>
    have h1 : mapChar false c = pyToUpper c := by simp [mapChar, hc]
    have hu : pyIsUpper (pyToUpper c) = true := pyIsUpper_pyToUpper hc
    rw [h1] at h
    rw [h] at hu
    exact absurd hu (by decide)

theorem marker_not_prefix_title (p : Bool) (c : Char) (cs : List Char) :
    markerL.isPrefixOf (mapChar p c :: titleAux (pyIsCased c) cs) = false := by
  by_contra hne
  have hpre : markerL.isPrefixOf (mapChar p c :: titleAux (pyIsCased c) cs) = true := by
    revert hne
    cases markerL.isPrefixOf (mapChar p c :: titleAux (pyIsCased c) cs) <;> simp
  have hm : markerL = '<' :: 'e' :: "nd_of_utterance>".data := rfl
  rw [hm, List.isPrefixOf] at hpre
  have h1 : ('<' == mapChar p c) = true := by
    cases h' : ('<' == mapChar p c) with
    | false => rw [h'] at hpre; simp at hpre
    | true => rfl
  have h2 : List.isPrefixOf ('e' :: "nd_of_utterance>".data) (titleAux (pyIsCased c) cs) = true := by
    rw [h1] at hpre
    simpa using hpre
  have hc : c = '<' := mapChar_ne_langle (beq_iff_eq.mp h1).symm
  have hcc : pyIsCased c = false := by rw [hc]; decide
  rw [hcc] at h2
  cases cs with
  | nil => simp [titleAux, List.isPrefixOf] at h2
  | cons c' cs' =>
    rw [titleAux_cons, List.isPrefixOf] at h2
    have h3 : ('e' == mapChar false c') = true := by
      cases h' : ('e' == mapChar false c') with
      | false => rw [h'] at h2; simp at h2
      | true => rfl
    exact mapChar_false_ne_e c' (beq_iff_eq.mp h3).symm

theorem removeMarkerFuel_title (l : List Char) :
    ∀ fuel p, l.length ≤ fuel → removeMarkerFuel fuel (titleAux p l) = titleAux p l := by
  induction l with
  | nil =>
    intro fuel p _
    cases fuel <;> rfl
  | cons c cs ih =>
    intro fuel p h
    rw [titleAux_cons]
    cases fuel with
    | zero => simp at h
    | succ f =>
      rw [removeMarkerFuel, if_neg (by rw [marker_not_prefix_title]; simp)]
      rw [ih f (pyIsCased c) (by simpa using h)]

theorem removeMarker_title (p : Bool) (l : List Char) :
    removeMarker (titleAux p l) = titleAux p l := by
  rw [removeMarker]
  exact removeMarkerFuel_title l _ p (le_of_eq (titleAux_length p l).symm)

/-! ### Strip lemmas -/

theorem head?_dropWhile {q : Char → Bool} {l : List Char} {c : Char}
    (h : (l.dropWhile q).head? = some c) : q c = false := by
  induction l with
  | nil => simp [List.dropWhile] at h
  | cons a as ih =>
    cases hq : q a with
    | true =>
      rw [List.dropWhile, hq] at h
      exact ih h
    | false =>
      rw [List.dropWhile, hq] at h
      simp at h
      rw [← h]
      exact hq

theorem dropWhile_eq_self {q : Char → Bool} {l : List Char}
    (h : ∀ c, l.head? = some c → q c = false) : l.dropWhile q = l := by
  cases l with
  | nil => rfl
  | cons a as => rw [List.dropWhile, h a rfl]

theorem dropWhile_append_single {q : Char → Bool} (xs : List Char) {c : Char}
    (h : q c = false) : ∃ ys, (xs ++ [c]).dropWhile q = ys ++ [c] := by
  induction xs with
  | nil => exact ⟨[], by simp [List.dropWhile, h]⟩
  | cons a as ih =>
    cases hq : q a with
    | true =>
      obtain ⟨ys, hys⟩ := ih
      exact ⟨ys, by rw [List.cons_append, List.dropWhile, hq]; exact hys⟩
    | false => exact ⟨a :: as, by rw [List.cons_append, List.dropWhile, hq]⟩

theorem pyStripR_exists_append (q : Char → Bool) (l : List Char) :
    ∃ t, l = pyStripR q l ++ t := by
  obtain ⟨s, hs⟩ := (List.dropWhile_suffix q : l.reverse.dropWhile q <:+ l.reverse)
  refine ⟨s.reverse, ?_⟩
  rw [pyStripR, ← List.reverse_append, hs, List.reverse_reverse]

theorem pyStripR_getLast_not {q : Char → Bool} {l : List Char} {c : Char}
    (h : (pyStripR q l).getLast? = some c) : q c = false := by
  rw [← List.head?_reverse, pyStripR, List.reverse_reverse] at h
  exact head?_dropWhile h

theorem pyStripLR_head_not {q : Char → Bool} {x : List Char} {c : Char}
    (h : (pyStripLR q x).head? = some c) : q c = false := by
  obtain ⟨t, ht⟩ := pyStripR_exists_append q (pyStripL q x)
  apply @head?_dropWhile q x c
  cases hy : pyStripLR q x with
  | nil => rw [hy] at h; simp at h
  | cons d ds =>
    rw [hy] at h
    simp at h
    rw [pyStripLR] at hy
    rw [hy] at ht
    show (pyStripL q x).head? = some c
    rw [ht, h]
    rfl

theorem pyStripLR_getLast_not {q : Char → Bool} {x : List Char} {c : Char}
    (h : (pyStripLR q x).getLast? = some c) : q c = false :=
  pyStripR_getLast_not h

/-! ### Title-casing preserves both ends being outside the strip set -/

theorem titleAux_head? (p : Bool) (l : List Char) :
    (titleAux p l).head? = l.head?.map (mapChar p) := by
  cases l with
  | nil => rfl
  | cons c cs => rw [titleAux_cons]; rfl

theorem titleAux_getLast? (l : List Char) :
    ∀ p c, l.getLast? = some c → ∃ p', (titleAux p l).getLast? = some (mapChar p' c) := by
  induction l with
  | nil => intro p c h; simp at h
  | cons a as ih =>
    intro p c h
    cases as with
    | nil =>
      simp at h
      rw [titleAux_cons, h]
      exact ⟨p, rfl⟩
    | cons b bs =>
      rw [List.getLast?_cons_cons] at h
      obtain ⟨p', hp'⟩ := ih (pyIsCased a) c h
      refine ⟨p', ?_⟩
      rw [titleAux_cons, titleAux_cons, List.getLast?_cons_cons]
      rw [titleAux_cons] at hp'
      exact hp'

theorem inStripSet_mapChar {p : Bool} {c : Char} (h : inStripSet c = false) :
    inStripSet (mapChar p c) = false := by
  cases hc : pyIsCased c with
  | false => rw [mapChar_of_not_cased hc]; exact h
  | true =>
    have hmc : pyIsCased (mapChar p c) = true := by rw [pyIsCased_mapChar, hc]
    have hb : (97 ≤ (mapChar p c).toNat ∧ (mapChar p c).toNat ≤ 122) ∨
        (65 ≤ (mapChar p c).toNat ∧ (mapChar p c).toNat ≤ 90) := by
      rcases Bool.or_eq_true_iff.mp (by simpa [pyIsCased] using hmc) with hl | hu
      · exact Or.inl (pyIsLower_toNat hl)
      · exact Or.inr (pyIsUpper_toNat hu)
    have hdot : mapChar p c ≠ '.' := by
      intro he
      rw [he] at hb
      revert hb
      decide
    have hspace : mapChar p c ≠ ' ' := by
      intro he
      rw [he] at hb
      revert hb
      decide
    simp [inStripSet, hdot, hspace]

theorem pyStripLR_eq_self_of_ends {q : Char → Bool} {l : List Char}
    (hhead : ∀ c, l.head? = some c → q c = false)
    (hlast : ∀ c, l.getLast? = some c → q c = false) : pyStripLR q l = l := by
  have hrev : ∀ c, l.reverse.head? = some c → q c = false := by
    intro c hc
    rw [List.head?_reverse] at hc
    exact hlast c hc
  rw [pyStripLR, pyStripL, dropWhile_eq_self hhead, pyStripR, dropWhile_eq_self hrev,
    List.reverse_reverse]

theorem pyStripLR_title_eq_self (x : List Char) :
    pyStripLR inStripSet (titleAux false (pyStripLR inStripSet x)) =
      titleAux false (pyStripLR inStripSet x) := by
  apply pyStripLR_eq_self_of_ends
  · intro c hc
    rw [titleAux_head?] at hc
    cases hy : (pyStripLR inStripSet x).head? with
    | none => rw [hy] at hc; simp at hc
    | some d =>
      rw [hy] at hc
      simp at hc
      have hd : inStripSet d = false := pyStripLR_head_not hy
      rw [← hc]
      exact inStripSet_mapChar hd
  · intro c hc
    cases hy : pyStripLR inStripSet x with
    | nil => rw [hy] at hc; simp [titleAux] at hc
    | cons d ds =>
      have hyl : (pyStripLR inStripSet x).getLast? =
          some ((d :: ds).getLast (by simp)) := by
        rw [hy]
        exact List.getLast?_eq_getLast _ _
      have he : inStripSet ((d :: ds).getLast (by simp)) = false :=
        pyStripLR_getLast_not hyl
      obtain ⟨p', hp'⟩ := titleAux_getLast? _ false _ hyl
      rw [hp'] at hc
      simp at hc
      rw [← hc]
      exact inStripSet_mapChar he

/-! ### Idempotence of the normalizer -/

theorem extract_answerL_idem (l : List Char) :
    extract_answerL (extract_answerL l) = extract_answerL l := by
  simp only [extract_answerL, pyTitle]
  rw [removeMarker_title, pyStripLR_title_eq_self, titleAux_idem]

/-! ### Equivalence of the structurally recursive trims with `strip` -/

theorem trimStartRec_eq (q : Char → Bool) (l : List Char) :
    trimStartRec q l = pyStripL q l := by
  induction l with
  | nil => rfl
  | cons c cs ih =>
    cases hq : q c <;> simp [trimStartRec, pyStripL, List.dropWhile, hq, ih, pyStripL]

theorem trimEndRec_eq (q : Char → Bool) (l : List Char) :
    trimEndRec q l = pyStripR q l := by
  induction l with
  | nil => rfl
  | cons c cs ih =>
    cases htc : trimEndRec q cs with
    | nil =>
      have hd : cs.reverse.dropWhile q = [] := by
        have hr : pyStripR q cs = [] := by rw [← ih, htc]
        rw [pyStripR] at hr
        rw [← List.reverse_reverse (cs.reverse.dropWhile q), hr]
        rfl
      have hright : pyStripR q (c :: cs) = if q c then [] else [c] := by
        rw [pyStripR, List.reverse_cons]
        cases hq : q c with
        | true =>
          rw [List.dropWhile_append]
          simp [hd, List.dropWhile, hq]
        | false =>
          rw [List.dropWhile_append]
          simp [hd, List.dropWhile, hq]
      rw [hright]
      simp only [trimEndRec, htc]
    | cons d ds =>
      have hnd : ¬ cs.reverse.dropWhile q = [] := by
        intro hnil
        have : pyStripR q cs = [] := by rw [pyStripR, hnil]; rfl
        rw [← ih, htc] at this
        exact absurd this (by simp)
      have hright : pyStripR q (c :: cs) = c :: pyStripR q cs := by
        rw [pyStripR, List.reverse_cons, List.dropWhile_append]
        rw [if_neg (by simpa using hnd)]
        rw [List.reverse_append, pyStripR]
        rfl
      rw [hright, ← ih, htc]
      simp only [trimEndRec, htc]

/-! ### The head of a normalized error string -/

theorem removeMarker_cons_not_lt {c : Char} (l : List Char) (h : ('<' == c) = false) :
    removeMarker (c :: l) = c :: removeMarkerFuel l.length l := by
  have hm : markerL.isPrefixOf (c :: l) = false := by
    rw [show markerL = '<' :: 'e' :: "nd_of_utterance>".data from rfl, List.isPrefixOf, h]
    rfl
  show removeMarkerFuel (l.length + 1) (c :: l) = c :: removeMarkerFuel l.length l
  rw [removeMarkerFuel, if_neg (by simp [hm])]

theorem pyStripR_head {q : Char → Bool} {c : Char} (l : List Char) (h : q c = false) :
    (pyStripR q (c :: l)).head? = some c := by
  rw [pyStripR, List.reverse_cons]
  obtain ⟨ys, hys⟩ := dropWhile_append_single l.reverse h
  rw [hys, List.reverse_append]
  rfl

theorem extract_answer_errString_head (e : String) :
    (extract_answer ("Error processing question: " ++ e)).data.head? = some 'E' := by
  have hdata : ("Error processing question: " ++ e).data =
      'E' :: ("rror processing question: ".data ++ e.data) := by
    rw [String.data_append]
    rfl
  show (extract_answerL ("Error processing question: " ++ e).data).head? = some 'E'
  rw [hdata, extract_answerL, removeMarker_cons_not_lt _ (by decide)]
  rw [pyTitle, pyStripLR, pyStripL, dropWhile_eq_self ?_, titleAux_head?, pyStripR_head _ (by decide)]
  · rfl
  · intro d hd
    simp at hd
    rw [← hd]
    decide

theorem extract_answer_errString_ne_NA (e : String) :
    extract_answer ("Error processing question: " ++ e) ≠ "N/A" := by
  intro h
  have h2 := extract_answer_errString_head e
  rw [h] at h2
  exact absurd h2 (by decide)

/-! ### Segmentation lookups -/

theorem segmentation_lookup (gen : String → Except String String) (c : Category) :
    List.lookup c (segmentation gen) =
      some (match ask_mlx_vlm gen (questionOf c) with
        | Except.ok r => extract_answer r
        | Except.error _ => "N/A") := by
  cases c <;> rfl

/-! ### Further helper lemmas for the claims -/

theorem flatten_replicate_singleton (c : Char) :
    ∀ n, (List.replicate n [c]).flatten = List.replicate n c := by
  intro n
  induction n with
  | zero => rfl
  | succ m ih => simp [List.replicate, List.flatten, ih]

theorem lookup_forall {β : Type} (P : β → Prop) :
    ∀ (cat : List (String × β)) (label : String) (v : β),
      (∀ kv ∈ cat, P kv.2) → List.lookup label cat = some v → P v := by
  intro cat
  induction cat with
  | nil => intro label v _ h; simp [List.lookup] at h
  | cons kv t ih =>
    intro label v hall h
    obtain ⟨k, b⟩ := kv
    rw [List.lookup] at h
    cases hb : (label == k) with
    | true =>
      simp only [hb] at h
      injection h with h'
      rw [← h']
      exact hall (k, b) (by simp)
    | false =>
      simp only [hb] at h
      exact ih label v (fun x hx => hall x (by simp [hx])) h

theorem catalog_lookup_ne_nil {c : Category} {label : String} {ads : List Ad}
    (h : List.lookup label (catalogOf c) = some ads) : ads ≠ [] := by
  refine lookup_forall (fun l => l ≠ []) (catalogOf c) label ads ?_ h
  cases c <;> decide

/-! ### Claim theorems -/

/-- C3: the Answer Normalizer maps `" happy. "` to `"Happy"` and
`"50+<end_of_utterance>"` to `"50+"` (title-casing a token with no letters
is a no-op). -/
theorem C3_normalizer_examples :
    extract_answer " happy. " = "Happy" ∧ extract_answer "50+<end_of_utterance>" = "50+" := by
  decide

/-- C4: the Answer Normalizer is idempotent on every input string, and in
particular fixes every key of the four static catalogs. -/
theorem C4_normalizer_idempotent (s : String) (k : String) (hk : k ∈ catalogKeys) :
    extract_answer (extract_answer s) = extract_answer s ∧ extract_answer k = k := by
  constructor
  · exact congrArg String.mk (extract_answerL_idem s.data)
  · have hall : ∀ k' ∈ catalogKeys, extract_answer k' = k' := by decide
    exact hall k hk

/-- C4 witness: idempotence at a concrete string and fixedness of the
catalog key `"30-40"`. -/
theorem C4_witness :
    extract_answer (extract_answer "  sporty!  ") = extract_answer "  sporty!  " ∧
      extract_answer "30-40" = "30-40" :=
  C4_normalizer_idempotent "  sporty!  " "30-40" (by decide)

/-- C2 counterexample: the normalizer does not trim all leading/trailing
whitespace — a leading tab character survives `strip(". ")`, so the claimed
pipeline (which trims every whitespace character) disagrees with the code
on `"\thappy"`. -/
theorem C2_counterexample :
    extract_answer "\thappy" ≠ extract_answer_claimed "\thappy" ∧
    extract_answer "\thappy" = "\tHappy" ∧
    extract_answer_claimed "\thappy" = "Happy" := by
  decide

/-- C2 amended: the normalizer first removes the end-of-generation marker,
then trims leading and trailing space and period characters only, then
title-cases; stated against an independently written trim recursion. -/
theorem C2_normalizer_steps (s : String) :
    extract_answer s = extract_answer_amended s := by
  rw [extract_answer, extract_answer_amended, extract_answerL]
  rw [trimEndRec_eq, trimStartRec_eq]
  rfl

/-- C1 counterexample: with a model whose `generate` throws `"boom"` on the
mood question, the Segmentation Result records the title-cased error string
for mood, not `"N/A"`. -/
theorem C1_counterexample :
    List.lookup Category.mood (segmentation gen0) =
      some "Error Processing Question: Boom" ∧
    ("Error Processing Question: Boom" : String) ≠ "N/A" := by
  decide

/-- C1 amended: when the `generate` call for a category fails, the
Segmentation Result records the title-cased string
`extract_answer ("Error processing question: <msg>")` (never `"N/A"`) for
that category; every category key is always present; and each category's
entry depends only on the model's behaviour on that category's question. -/
theorem C1_segmentation_failure (gen : String → Except String String) (c : Category)
    (e : String) (h : gen (questionOf c) = Except.error e) :
    List.lookup c (segmentation gen) =
      some (extract_answer ("Error processing question: " ++ e)) ∧
    extract_answer ("Error processing question: " ++ e) ≠ "N/A" ∧
    (∀ c', (List.lookup c' (segmentation gen)).isSome = true) ∧
    (∀ gen' c', gen' (questionOf c') = gen (questionOf c') →
      List.lookup c' (segmentation gen') = List.lookup c' (segmentation gen)) := by
  refine ⟨?_, extract_answer_errString_ne_NA e, ?_, ?_⟩
  · rw [segmentation_lookup]
    simp [ask_mlx_vlm, h]
  · intro c'
    rw [segmentation_lookup]
    rfl
  · intro gen' c' h'
    rw [segmentation_lookup, segmentation_lookup, ask_mlx_vlm, ask_mlx_vlm, h']

/-- C1 witness: the amended statement at a concrete model that throws on
the age question. -/
theorem C1_witness :
    List.lookup Category.age (segmentation (fun q =>
        if q = questionOf Category.age then Except.error "down" else Except.ok "Neutral")) =
      some (extract_answer ("Error processing question: " ++ "down")) ∧
    extract_answer ("Error processing question: " ++ "down") ≠ "N/A" ∧
    (∀ c', (List.lookup c' (segmentation (fun q =>
        if q = questionOf Category.age then Except.error "down" else Except.ok "Neutral"))).isSome = true) ∧
    (∀ gen' c', gen' (questionOf c') = (fun q =>
        if q = questionOf Category.age then Except.error "down" else Except.ok "Neutral") (questionOf c') →
      List.lookup c' (segmentation gen') = List.lookup c' (segmentation (fun q =>
        if q = questionOf Category.age then Except.error "down" else Except.ok "Neutral"))) :=
  C1_segmentation_failure _ Category.age "down" (by simp)

/-- C10: `ask_mlx_vlm` never propagates an exception — every call returns
normally; a failing `generate` yields `"Error processing question: <msg>"`
as if it were model output, so the segmentation entry becomes the
title-cased error string, which is never `"N/A"`. -/
theorem C10_wrapper_never_throws (gen : String → Except String String) (q e : String)
    (h : gen q = Except.error e) :
    ask_mlx_vlm gen q = Except.ok ("Error processing question: " ++ e) ∧
    (∀ gen' q', ∃ out, ask_mlx_vlm gen' q' = Except.ok out) ∧
    (∀ c : Category, gen (questionOf c) = Except.error e →
      List.lookup c (segmentation gen) =
        some (extract_answer ("Error processing question: " ++ e))) ∧
    extract_answer ("Error processing question: " ++ e) ≠ "N/A" := by
  refine ⟨by rw [ask_mlx_vlm, h], fun gen' q' => ⟨_, rfl⟩, ?_, extract_answer_errString_ne_NA e⟩
  intro c hc
  rw [segmentation_lookup]
  simp [ask_mlx_vlm, hc]

/-- C10 witness: the wrapper at a concrete always-throwing model. -/
theorem C10_witness :
    ask_mlx_vlm genOom "which?" = Except.ok ("Error processing question: " ++ "oom") ∧
    (∀ gen' q', ∃ out, ask_mlx_vlm gen' q' = Except.ok out) ∧
    (∀ c : Category, genOom (questionOf c) = Except.error "oom" →
      List.lookup c (segmentation genOom) =
        some (extract_answer ("Error processing question: " ++ "oom"))) ∧
    extract_answer ("Error processing question: " ++ "oom") ≠ "N/A" :=
  C10_wrapper_never_throws genOom "which?" "oom" rfl

/-- C5: for a missing or unrecognized label (including `"N/A"`), the ad
selector returns exactly the single generic fallback ad, titled
`"Default <Category> Ad"`, priced `"$0.00"`, rated `5.0`, and never
errors. -/
theorem C5_fallback_default (c : Category) (label : Option String) (i : Nat)
    (h : ∀ l, label = some l → List.lookup l (catalogOf c) = none) :
    selected_ad (catalogOf c) label (defaultAd c) i = some (defaultAd c) ∧
    (defaultAd c).title = "Default " ++ categoryName c ++ " Ad" ∧
    (defaultAd c).price = "$0.00" ∧
    (defaultAd c).rating = 5 := by
  refine ⟨?_, by cases c <;> rfl, by cases c <;> rfl, ?_⟩
  · have hcand : dictGetAds (catalogOf c) label [defaultAd c] = [defaultAd c] := by
      cases label with
      | none => rfl
      | some l => rw [dictGetAds, h l rfl]; rfl
    rw [selected_ad, hcand, pyRandomChoice]
    simp [Nat.mod_one]
  · cases c <;> norm_num [defaultAd, Ad.make]

/-- C5 witness: the fallback at the sentinel label `"N/A"` for mood. -/
theorem C5_witness :
    selected_ad (catalogOf Category.mood) (some "N/A") (defaultAd Category.mood) 7 =
      some (defaultAd Category.mood) ∧
    (defaultAd Category.mood).title = "Default " ++ categoryName Category.mood ++ " Ad" ∧
    (defaultAd Category.mood).price = "$0.00" ∧
    (defaultAd Category.mood).rating = 5 :=
  C5_fallback_default Category.mood (some "N/A") 7 (fun l hl => by cases hl; rfl)

/-- C6: whenever the label is a key of the category's catalog, the selected
ad is a member of that catalog entry's list. -/
theorem C6_selected_in_catalog (c : Category) (label : String) (ads : List Ad)
    (dflt : Ad) (i : Nat) (h : List.lookup label (catalogOf c) = some ads) :
    ∃ a, a ∈ ads ∧ selected_ad (catalogOf c) (some label) dflt i = some a := by
  have hne : ads ≠ [] := catalog_lookup_ne_nil h
  have hlen : i % ads.length < ads.length := Nat.mod_lt _ (List.length_pos.mpr hne)
  refine ⟨ads.get ⟨i % ads.length, hlen⟩, List.get_mem ads _ _, ?_⟩
  have hd : dictGetAds (catalogOf c) (some label) [dflt] = ads := by
    simp only [dictGetAds, h, Option.getD_some]
  rw [selected_ad, hd, pyRandomChoice]
  exact List.get?_eq_get hlen

/-- C6 witness: the mood label `"Happy"` always selects one of its three
catalog ads. -/
theorem C6_witness :
    ∃ a, a ∈ (List.lookup "Happy" ads_mood).getD [] ∧
      selected_ad (catalogOf Category.mood) (some "Happy") (defaultAd Category.mood) 2 = some a :=
  C6_selected_in_catalog Category.mood "Happy" ((List.lookup "Happy" ads_mood).getD [])
    (defaultAd Category.mood) 2 rfl

/-- C7: `format_stars` emits exactly the rating's integer part many filled
stars, appends a single half-star exactly when the fractional part is at
least `0.5`, and the rendered ad card shows the numeric rating in
parentheses. -/
theorem C7_star_rendering (r : ℚ) (ad : Ad) :
    (format_stars r).data.count '★' = (pyInt r).toNat ∧
    (format_stars r).data.count '½' = (if r - (pyInt r : ℚ) ≥ 0.5 then 1 else 0) ∧
    (format_stars r).data =
      List.replicate (pyInt r).toNat '★' ++ (if r - (pyInt r : ℚ) ≥ 0.5 then ['½'] else []) ∧
    ∃ pre post : String,
      format_ad_html ad = pre ++ ("(" ++ showRating ad.rating ++ ")") ++ post := by
  have hrep : (pyStrRepeat "★" (pyInt r)).data = List.replicate (pyInt r).toNat '★' := by
    rw [pyStrRepeat]
    exact flatten_replicate_singleton '★' (pyInt r).toNat
  have hdata : (format_stars r).data =
      List.replicate (pyInt r).toNat '★' ++ (if r - (pyInt r : ℚ) ≥ 0.5 then ['½'] else []) := by
    by_cases hhalf : r - (pyInt r : ℚ) ≥ 0.5
    · have hb : decide (r - (pyInt r : ℚ) ≥ 0.5) = true := decide_eq_true hhalf
      simp [format_stars, hb, if_pos hhalf, String.data_append, hrep]
    · have hb : decide (r - (pyInt r : ℚ) ≥ 0.5) = false := decide_eq_false hhalf
      simp [format_stars, hb, if_neg hhalf, hrep]
  refine ⟨?_, ?_, hdata, ?_⟩
  · rw [hdata, List.count_append, List.count_replicate_self]
    by_cases hhalf : r - (pyInt r : ℚ) ≥ 0.5 <;> simp [hhalf]
  · rw [hdata, List.count_append, List.count_replicate]
    by_cases hhalf : r - (pyInt r : ℚ) ≥ 0.5 <;> simp [hhalf]
  · refine ⟨"\n        <div class=\"ad-card\">\n            <img src=\"" ++ ad.image_placeholder ++
      "\" alt=\"" ++ ad.title ++ "\" class=\"ad-image\">\n            <div class=\"ad-content\">\n                <h3 class=\"ad-title\">" ++
      ad.title ++ "</h3>\n                <p class=\"ad-description\">" ++ ad.description ++
      "</p>\n                <div class=\"ad-footer\">\n                    <span class=\"ad-price\">" ++
      ad.price ++ "</span>\n                    <span class=\"ad-rating\">" ++
      format_stars ad.rating ++ " ",
      "</span>\n                </div>\n            </div>\n        </div>\n        ", ?_⟩
    simp only [format_ad_html, String.append_assoc]

/-- C8: a POST without an `image` form field yields status 400 with body
`{"error": "No image uploaded"}`, independently of the decoder, the model
and the random draws. -/
theorem C8_missing_image_field {Img : Type} (files : List (String × List Nat))
    (decodeImage : List Nat → Except String Img) (gen : Img → String → Except String String)
    (idx : Category → Nat) (h : List.lookup "image" files = none) :
    process_image files decodeImage gen idx = (400, Body.errorJson "No image uploaded") := by
  rw [process_image, h]

/-- C8 witness: the 400 response on an empty multipart form. -/
theorem C8_witness :
    @process_image Unit [] (fun _ => Except.error "x") (fun _ _ => Except.ok "y")
      (fun _ => 0) = (400, Body.errorJson "No image uploaded") :=
  C8_missing_image_field [] _ _ _ rfl

/-- C9: when the uploaded bytes cannot be decoded, the handler returns 500
with the decoder's error text as the body, before any model invocation or
ad selection (the result does not depend on `gen` or `idx`). -/
theorem C9_decode_failure {Img : Type} (files : List (String × List Nat)) (b : List Nat)
    (decodeImage : List Nat → Except String Img) (gen : Img → String → Except String String)
    (idx : Category → Nat) (e : String)
    (h1 : List.lookup "image" files = some b) (h2 : decodeImage b = Except.error e)
    (h3 : e ≠ "") :
    process_image files decodeImage gen idx = (500, Body.errorJson e) ∧ e ≠ "" := by
  refine ⟨?_, h3⟩
  simp only [process_image, h1, h2]

/-- C9 witness: the 500 response on undecodable bytes. -/
theorem C9_witness :
    @process_image Unit [("image", [0])]
        (fun _ => Except.error "cannot identify image file")
        (fun _ _ => Except.ok "y") (fun _ => 0) =
      (500, Body.errorJson "cannot identify image file") ∧
    ("cannot identify image file" : String) ≠ "" :=
  C9_decode_failure _ _ _ _ _ _ rfl rfl (by decide)
